import Mathlib

/-!
Shallow embedding of gas-guru's `mod.py` (diving-gas limit calculator).

Python floats are modelled as exact rationals (`ℚ`); every formula in the
source is a ratio of small decimals, so the rational model computes the
same algebra the spec states.  A Python exception is modelled as `none`
(for `ZeroDivisionError`) or as a dedicated result constructor (for the
explicit `ValueError` raised by `calculate_depth_for_sp_and_density`).
The two unbounded `while True` search loops are modelled with an explicit
fuel parameter; termination claims become statements that some fuel
returns a result.
-/

namespace GasGuru

/-- Specific gravity of O2 at standard conditions, g/l (`SPECIFIC_GRAVITY_O2 = 1.429`). -/
def SPECIFIC_GRAVITY_O2 : ℚ := 1.429

/-- Specific gravity of N2 at standard conditions, g/l (`SPECIFIC_GRAVITY_N2 = 1.2506`). -/
def SPECIFIC_GRAVITY_N2 : ℚ := 1.2506

/-- Specific gravity of He at standard conditions, g/l (`SPECIFIC_GRAVITY_HE = 0.1786`). -/
def SPECIFIC_GRAVITY_HE : ℚ := 0.1786

/-- Numeric value of a decimal digit character. -/
def charToDigit (c : Char) : ℕ := c.toNat - 48

/-- Accumulating digit-string reader: consumes decimal digits, failing on
any non-digit character. -/
def digitsToNatAux : ℕ → List Char → Option ℕ
  | acc, [] => some acc
  | acc, c :: rest =>
    if c.isDigit then digitsToNatAux (acc * 10 + charToDigit c) rest else none

/-- Models Python `int(token)` on the tokens trimix notation produces: an
optional sign followed by a nonempty run of decimal digits; any other
string raises `ValueError`, modelled as `none`. -/
def pyInt : List Char → Option ℤ
  | [] => none
  | '-' :: rest =>
    if rest = [] then none else (digitsToNatAux 0 rest).map (fun n => -(n : ℤ))
  | '+' :: rest =>
    if rest = [] then none else (digitsToNatAux 0 rest).map (fun n => (n : ℤ))
  | cs => (digitsToNatAux 0 cs).map (fun n => (n : ℤ))

/-- Models Python `trimix.split('/')`: splits on every `'/'`, keeping empty
tokens, and yields `[whole]` when no separator occurs. -/
def splitOnSlash : List Char → List (List Char)
  | [] => [[]]
  | c :: rest =>
    if c = '/' then [] :: splitOnSlash rest
    else
      match splitOnSlash rest with
      | [] => [[c]]
      | t :: ts => (c :: t) :: ts

/-- `parse_trimix` from `mod.py`: with a `'/'` present, `o2, he = map(int,
trimix.split('/'))` (an exception — wrong token count or a bad integer —
is `none`) and `n2 = 100 - o2 - he`; otherwise `o2 = int(trimix)`,
`he = 0`, `n2 = 100 - o2`. -/
def parse_trimix (s : String) : Option (ℤ × ℤ × ℤ) :=
  if s.data.contains '/' then
    match splitOnSlash s.data with
    | [t1, t2] =>
      match pyInt t1, pyInt t2 with
      | some o2, some he => some (o2, he, 100 - o2 - he)
      | _, _ => none
    | _ => none
  else
    match pyInt s.data with
    | some o2 => some (o2, 0, 100 - o2)
    | none => none

/-- `calculate_depth_for_po2` from `mod.py`: `frac_o2 = oxygen_percentage
/ 100`, result `(target_po2 / frac_o2 - 1) * 10`; Python raises
`ZeroDivisionError` when `frac_o2 == 0`, modelled as `none`. -/
def calculate_depth_for_po2 (target_po2 oxygen_percentage : ℚ) : Option ℚ :=
  let frac_o2 := oxygen_percentage / 100
  if frac_o2 = 0 then none
  else some ((target_po2 / frac_o2 - 1) * 10)

/-- `find_depth_for_30m_end` from `mod.py`: `target_ppn2_air_30m = 0.79 *
4`, result `(target_ppn2_air_30m / (n2_percentage / 100) - 1) * 10`;
division by zero is `none`. -/
def find_depth_for_30m_end (n2_percentage : ℚ) : Option ℚ :=
  let frac_n2_mix := n2_percentage / 100
  let target_ppn2_air_30m : ℚ := 0.79 * 4
  if frac_n2_mix = 0 then none
  else some ((target_ppn2_air_30m / frac_n2_mix - 1) * 10)

/-- Per-liter weight of the fixed mix in `calculate_depth_for_gas_density`:
`frac_o2 * 1.429 + frac_n2 * 1.2506 + frac_he * 0.1786` with
`frac_n2 = 1 - frac_o2 - frac_he`. -/
def gasWeight (o2_percentage he_percentage : ℚ) : ℚ :=
  let frac_o2 := o2_percentage / 100
  let frac_he := he_percentage / 100
  let frac_n2 := 1 - frac_o2 - frac_he
  frac_o2 * SPECIFIC_GRAVITY_O2 + frac_n2 * SPECIFIC_GRAVITY_N2 +
    frac_he * SPECIFIC_GRAVITY_HE

/-- The density computed inside the `calculate_depth_for_gas_density`
loop: `(1 + depth / 10) * (frac_o2 * 1.429 + frac_n2 * 1.2506 + frac_he *
0.1786)`. -/
def densityAtDepth (o2_percentage he_percentage : ℚ) (depth : ℕ) : ℚ :=
  (1 + (depth : ℚ) / 10) * gasWeight o2_percentage he_percentage

/-- The `while True` loop of `calculate_depth_for_gas_density`, with
explicit fuel: break (returning the current depth) once `density >=
target_density`, else `depth += 1`. -/
def gasDensityLoop (o2_percentage he_percentage target_density : ℚ) :
    ℕ → ℕ → Option ℕ
  | 0, _ => none
  | fuel + 1, depth =>
    if target_density ≤ densityAtDepth o2_percentage he_percentage depth then
      some depth
    else gasDensityLoop o2_percentage he_percentage target_density fuel (depth + 1)

/-- `calculate_depth_for_gas_density` from `mod.py`: whole-meter search
starting at `depth = 0`. -/
def calculate_depth_for_gas_density
    (o2_percentage he_percentage target_density : ℚ) (fuel : ℕ) : Option ℕ :=
  gasDensityLoop o2_percentage he_percentage target_density fuel 0

/-- `ambient_pressure = 1 + depth / 10` (ATA), as computed in
`calculate_depth_for_sp_and_density`. -/
def ambient_pressure (depth : ℕ) : ℚ := 1 + (depth : ℚ) / 10

/-- The loop's `frac_o2 = set_point / ambient_pressure`. -/
def spFracO2 (set_point : ℚ) (depth : ℕ) : ℚ :=
  set_point / ambient_pressure depth

/-- The loop's `frac_he = initial_he_percentage / 100 * total_he_n2` where
`total_he_n2 = 1 - frac_o2`. -/
def spFracHe (initial_he_percentage set_point : ℚ) (depth : ℕ) : ℚ :=
  initial_he_percentage / 100 * (1 - spFracO2 set_point depth)

/-- The loop's `frac_n2 = initial_n2_percentage / 100 * total_he_n2` where
`total_he_n2 = 1 - frac_o2`. -/
def spFracN2 (initial_n2_percentage set_point : ℚ) (depth : ℕ) : ℚ :=
  initial_n2_percentage / 100 * (1 - spFracO2 set_point depth)

/-- The density computed in the `calculate_depth_for_sp_and_density` loop:
`ambient_pressure * (frac_o2 * 1.429 + frac_n2 * 1.2506 + frac_he *
0.1786)` with the set-point-derived fractions. -/
def spDensity (initial_he_percentage initial_n2_percentage set_point : ℚ)
    (depth : ℕ) : ℚ :=
  ambient_pressure depth *
    (spFracO2 set_point depth * SPECIFIC_GRAVITY_O2 +
      spFracN2 initial_n2_percentage set_point depth * SPECIFIC_GRAVITY_N2 +
      spFracHe initial_he_percentage set_point depth * SPECIFIC_GRAVITY_HE)

/-- Outcome of `calculate_depth_for_sp_and_density`: either the
`ValueError("Set point cannot be reached with the initial mix.")` raise,
or a returned depth. -/
inductive SpResult where
  | unreachableSetPoint : SpResult
  | found : ℕ → SpResult
deriving DecidableEq, Repr

/-- The `while True` loop of `calculate_depth_for_sp_and_density`, with
explicit fuel: at each depth first `raise` if `frac_o2 >= 1.0`, then
return the depth if `density >= target_density`, else `depth += 1`. -/
def spDensityLoop (initial_he_percentage initial_n2_percentage set_point
    target_density : ℚ) : ℕ → ℕ → Option SpResult
  | 0, _ => none
  | fuel + 1, depth =>
    if 1 ≤ spFracO2 set_point depth then some SpResult.unreachableSetPoint
    else if target_density ≤
        spDensity initial_he_percentage initial_n2_percentage set_point depth then
      some (SpResult.found depth)
    else
      spDensityLoop initial_he_percentage initial_n2_percentage set_point
        target_density fuel (depth + 1)

/-- `calculate_depth_for_sp_and_density` from `mod.py`: the search starts
from `depth = 10`; `initial_o2_percentage` is accepted and unused, exactly
as in the source. -/
def calculate_depth_for_sp_and_density
    (initial_o2_percentage initial_he_percentage initial_n2_percentage
      set_point target_density : ℚ) (fuel : ℕ) : Option SpResult :=
  spDensityLoop initial_he_percentage initial_n2_percentage set_point
    target_density fuel 10

/-! ## Lemmas about the fixed-mix density search -/

/-- Whatever the fixed-mix loop returns is at or past the start, meets the
target, and every depth it stepped over is strictly below the target. -/
lemma gasDensityLoop_sound (o2 he target : ℚ) :
    ∀ fuel start d, gasDensityLoop o2 he target fuel start = some d →
      start ≤ d ∧ target ≤ densityAtDepth o2 he d ∧
        ∀ e, start ≤ e → e < d → densityAtDepth o2 he e < target := by
  intro fuel
  induction fuel with
  | zero => intro start d h; simp [gasDensityLoop] at h
  | succ n ih =>
    intro start d h
    simp only [gasDensityLoop] at h
    by_cases hc : target ≤ densityAtDepth o2 he start
    · rw [if_pos hc] at h
      obtain rfl : start = d := Option.some.inj h
      exact ⟨le_refl _, hc, fun e he1 he2 => absurd he1 (by omega)⟩
    · rw [if_neg hc] at h
      obtain ⟨h1, h2, h3⟩ := ih (start + 1) d h
      refine ⟨by omega, h2, ?_⟩
      intro e he1 he2
      rcases eq_or_lt_of_le he1 with rfl | hlt
      · exact lt_of_not_le hc
      · exact h3 e (by omega) he2

/-- Given any depth meeting the target within fuel range, the loop
returns something. -/
lemma gasDensityLoop_complete (o2 he target : ℚ) :
    ∀ fuel start D, target ≤ densityAtDepth o2 he D → start ≤ D →
      D < start + fuel →
      ∃ d, gasDensityLoop o2 he target fuel start = some d := by
  intro fuel
  induction fuel with
  | zero => intro start D _ h1 h2; omega
  | succ n ih =>
    intro start D hD h1 h2
    by_cases hc : target ≤ densityAtDepth o2 he start
    · exact ⟨start, by simp [gasDensityLoop, hc]⟩
    · have hne : start ≠ D := by rintro rfl; exact hc hD
      obtain ⟨d, hd⟩ := ih (start + 1) D hD (by omega) (by omega)
      exact ⟨d, by simp [gasDensityLoop, hc, hd]⟩

/-- A mix with positive per-liter weight reaches any target density at
some integer depth. -/
lemma exists_densityAtDepth_ge (o2 he target : ℚ)
    (hw : 0 < gasWeight o2 he) :
    ∃ D : ℕ, target ≤ densityAtDepth o2 he D := by
  refine ⟨⌈10 * target / gasWeight o2 he⌉₊, ?_⟩
  have hle : 10 * target / gasWeight o2 he ≤
      ((⌈10 * target / gasWeight o2 he⌉₊ : ℕ) : ℚ) := Nat.le_ceil _
  have h2 : 10 * target ≤
      ((⌈10 * target / gasWeight o2 he⌉₊ : ℕ) : ℚ) * gasWeight o2 he := by
    have hmul := mul_le_mul_of_nonneg_right hle (le_of_lt hw)
    rwa [div_mul_cancel₀ _ (ne_of_gt hw)] at hmul
  unfold densityAtDepth
  nlinarith [hw]

/-- Density strictly increases with depth when the per-liter weight is
positive. -/
lemma densityAtDepth_strictMono (o2 he : ℚ) (hw : 0 < gasWeight o2 he)
    {d1 d2 : ℕ} (h : d1 < d2) :
    densityAtDepth o2 he d1 < densityAtDepth o2 he d2 := by
  unfold densityAtDepth
  have hq : (d1 : ℚ) < (d2 : ℚ) := by exact_mod_cast h
  have h10 : 1 + (d1 : ℚ) / 10 < 1 + (d2 : ℚ) / 10 := by linarith
  exact mul_lt_mul_of_pos_right h10 hw

/-! ## Lemmas about the set-point density search -/

lemma ambient_pressure_pos (d : ℕ) : 0 < ambient_pressure d := by
  unfold ambient_pressure; positivity

lemma two_le_ambient_pressure {d : ℕ} (h : 10 ≤ d) :
    2 ≤ ambient_pressure d := by
  unfold ambient_pressure
  have hq : (10 : ℚ) ≤ (d : ℚ) := by exact_mod_cast h
  linarith

lemma ambient_pressure_ten : ambient_pressure 10 = 2 := by
  norm_num [ambient_pressure]

lemma spFracO2_ten (sp : ℚ) : spFracO2 sp 10 = sp / 2 := by
  rw [spFracO2, ambient_pressure_ten]

/-- Below a set point of 2 bar, the required oxygen fraction stays below
1 at every depth from 10 m on. -/
lemma spFracO2_lt_one {sp : ℚ} {d : ℕ} (h10 : 10 ≤ d) (hsp : sp < 2) :
    spFracO2 sp d < 1 := by
  unfold spFracO2
  have h2 := two_le_ambient_pressure h10
  rw [div_lt_one (ambient_pressure_pos d)]
  linarith

/-- With a set point below 2 bar the loop never raises, from any starting
depth of 10 m or more. -/
lemma spDensityLoop_no_error (he n2 sp target : ℚ) (hsp : sp < 2) :
    ∀ fuel start, 10 ≤ start →
      spDensityLoop he n2 sp target fuel start ≠
        some SpResult.unreachableSetPoint := by
  intro fuel
  induction fuel with
  | zero => intro start _ h; simp [spDensityLoop] at h
  | succ n ih =>
    intro start hstart h
    have hlt := spFracO2_lt_one hstart hsp
    simp only [spDensityLoop] at h
    rw [if_neg (not_le.mpr hlt)] at h
    by_cases hc : target ≤ spDensity he n2 sp start
    · rw [if_pos hc] at h
      exact SpResult.noConfusion (Option.some.inj h)
    · rw [if_neg hc] at h
      exact ih (start + 1) (by omega) h

/-- With a set point of 2 bar or more the very first iteration (depth
10 m, ambient 2 ATA) raises. -/
lemma spDensityLoop_error_at_ten (he n2 sp target : ℚ) (hsp : 2 ≤ sp)
    (fuel : ℕ) :
    spDensityLoop he n2 sp target (fuel + 1) 10 =
      some SpResult.unreachableSetPoint := by
  have h1 : (1 : ℚ) ≤ spFracO2 sp 10 := by
    rw [spFracO2_ten, le_div_iff₀ (by norm_num : (0 : ℚ) < 2)]
    linarith
  simp [spDensityLoop, h1]

/-- The raise happens iff the set point is at least 2 bar (given at least
one iteration of fuel). -/
lemma sp_error_iff (o2 he n2 sp target : ℚ) (fuel : ℕ) (hfuel : 1 ≤ fuel) :
    calculate_depth_for_sp_and_density o2 he n2 sp target fuel =
      some SpResult.unreachableSetPoint ↔ 2 ≤ sp := by
  unfold calculate_depth_for_sp_and_density
  constructor
  · intro h
    by_contra hlt
    push_neg at hlt
    exact spDensityLoop_no_error he n2 sp target hlt fuel 10 (by norm_num) h
  · intro h
    obtain ⟨f, rfl⟩ : ∃ f, fuel = f + 1 := ⟨fuel - 1, by omega⟩
    exact spDensityLoop_error_at_ten he n2 sp target h f

/-- Whatever depth the set-point loop returns is at or past the start,
meets the target, and every depth it stepped over is strictly below the
target with a valid (< 1) oxygen fraction. -/
lemma spDensityLoop_found_sound (he n2 sp target : ℚ) :
    ∀ fuel start d,
      spDensityLoop he n2 sp target fuel start = some (SpResult.found d) →
      start ≤ d ∧ target ≤ spDensity he n2 sp d ∧ spFracO2 sp d < 1 ∧
        ∀ e, start ≤ e → e < d →
          spFracO2 sp e < 1 ∧ spDensity he n2 sp e < target := by
  intro fuel
  induction fuel with
  | zero => intro start d h; simp [spDensityLoop] at h
  | succ n ih =>
    intro start d h
    simp only [spDensityLoop] at h
    by_cases ho : 1 ≤ spFracO2 sp start
    · rw [if_pos ho] at h
      exact SpResult.noConfusion (Option.some.inj h)
    · rw [if_neg ho] at h
      by_cases hc : target ≤ spDensity he n2 sp start
      · rw [if_pos hc] at h
        obtain rfl : start = d := SpResult.found.inj (Option.some.inj h)
        exact ⟨le_refl _, hc, not_le.mp ho,
          fun e he1 he2 => absurd he1 (by omega)⟩
      · rw [if_neg hc] at h
        obtain ⟨h1, h2, h3, h4⟩ := ih (start + 1) d h
        refine ⟨by omega, h2, h3, ?_⟩
        intro e he1 he2
        rcases eq_or_lt_of_le he1 with rfl | hlt
        · exact ⟨not_le.mp ho, not_le.mp hc⟩
        · exact h4 e (by omega) he2

/-! ## Lemmas about the parser -/

/-- Every successful parse puts `100 - o2 - he` in the nitrogen slot. -/
lemma parse_trimix_some (s : String) (o2 he n2 : ℤ)
    (h : parse_trimix s = some (o2, he, n2)) : n2 = 100 - o2 - he := by
  unfold parse_trimix at h
  split at h
  · split at h
    · split at h
      · simp only [Option.some.injEq, Prod.mk.injEq] at h
        omega
      · exact absurd h (by simp)
    · exact absurd h (by simp)
  · split at h
    · simp only [Option.some.injEq, Prod.mk.injEq] at h
      omega
    · exact absurd h (by simp)

/-! ## Claim theorems -/

/-- **C6.** `parse` maps `a/b` to `(a, b, 100 - a - b)` and a plain
integer `a` to `(a, 0, 100 - a)`; in particular `"18/35"` gives
`(18, 35, 47)`, `"50"` gives `(50, 0, 50)` and `"21/0"` gives
`(21, 0, 79)`. -/
theorem parse_trimix_maps_tokens_to_mix :
    parse_trimix "18/35" = some (18, 35, 47) ∧
    parse_trimix "50" = some (50, 0, 50) ∧
    parse_trimix "21/0" = some (21, 0, 79) ∧
    (∀ (s : String) (t1 t2 : List Char) (a b : ℤ),
      s.data.contains '/' = true → splitOnSlash s.data = [t1, t2] →
      pyInt t1 = some a → pyInt t2 = some b →
      parse_trimix s = some (a, b, 100 - a - b)) ∧
    (∀ (s : String) (a : ℤ),
      s.data.contains '/' = false → pyInt s.data = some a →
      parse_trimix s = some (a, 0, 100 - a)) := by
  refine ⟨by decide, by decide, by decide, ?_, ?_⟩
  · intro s t1 t2 a b h1 h2 h3 h4
    have hmem : '/' ∈ s.data := by simpa using h1
    simp [parse_trimix, hmem, h2, h3, h4]
  · intro s a h1 h2
    have hmem : '/' ∉ s.data := by simpa using h1
    simp [parse_trimix, hmem, h2]

theorem parse_trimix_maps_tokens_to_mix_witness :
    parse_trimix "18/35" = some (18, 35, 100 - 18 - 35) :=
  parse_trimix_maps_tokens_to_mix.2.2.2.1 "18/35" ['1', '8'] ['3', '5']
    18 35 (by decide) (by decide) (by decide) (by decide)

/-- **C7, counterexample.** `"60/60"` parses successfully to a mix with
`o2 + he = 120 > 100` and `n2 = -20 < 0`, violating the claimed
invariant. -/
theorem parse_trimix_invariant_violated :
    parse_trimix "60/60" = some (60, 60, -20) ∧
    ¬ ((60 : ℤ) + 60 ≤ 100 ∧ (0 : ℤ) ≤ -20) := by
  refine ⟨by decide, by decide⟩

/-- **C7, amended.** Every successful parse satisfies
`n2 = 100 - o2 - he`; the invariant `o2 + he ≤ 100` (equivalently
`0 ≤ n2`) is not enforced — it holds exactly when the parsed token sum is
at most 100. -/
theorem parse_trimix_n2_complement (s : String) (o2 he n2 : ℤ)
    (h : parse_trimix s = some (o2, he, n2)) :
    n2 = 100 - o2 - he ∧ (0 ≤ n2 ↔ o2 + he ≤ 100) := by
  have hn := parse_trimix_some s o2 he n2 h
  exact ⟨hn, by omega⟩

theorem parse_trimix_n2_complement_witness :
    (47 : ℤ) = 100 - 18 - 35 ∧ ((0 : ℤ) ≤ 47 ↔ (18 : ℤ) + 35 ≤ 100) :=
  parse_trimix_n2_complement "18/35" 18 35 47 (by decide)

/-- **C4.** For nonzero `o2Percent`, `depthForPO2` returns exactly
`(targetPO2 / (o2Percent/100) - 1) * 10`; in particular
`depthForPO2(1.4, 21) = (1.4/0.21 - 1) * 10 = 170/3 ≈ 56.67 m`. -/
theorem depth_for_po2_formula (target_po2 o2 : ℚ) (h : o2 ≠ 0) :
    calculate_depth_for_po2 target_po2 o2 =
      some ((target_po2 / (o2 / 100) - 1) * 10) ∧
    calculate_depth_for_po2 1.4 21 = some (170 / 3) ∧
    (170 : ℚ) / 3 = (1.4 / (21 / 100) - 1) * 10 ∧
    (56 : ℚ) < 170 / 3 ∧ (170 : ℚ) / 3 < 57 := by
  refine ⟨?_, by norm_num [calculate_depth_for_po2], by norm_num,
    by norm_num, by norm_num⟩
  have hz : o2 / 100 ≠ 0 := by
    simp [div_eq_zero_iff, h]
  simp [calculate_depth_for_po2, hz]

theorem depth_for_po2_formula_witness :
    calculate_depth_for_po2 1.4 21 = some ((1.4 / (21 / 100) - 1) * 10) :=
  (depth_for_po2_formula 1.4 21 (by norm_num)).1

/-- **C5, counterexample.** `find_depth_for_30m_end 68` is exactly
`(0.79*4 / 0.68 - 1) * 10 = 620/17`, which is greater than 36 — not
"approximately 16.47 meters" as the claim states. -/
theorem end_depth_at_68_not_16m :
    find_depth_for_30m_end 68 = some (620 / 17) ∧
    (0.79 * 4 / ((68 : ℚ) / 100) - 1) * 10 = 620 / 17 ∧
    ¬ ((620 : ℚ) / 17 < 17) ∧ (36 : ℚ) < 620 / 17 := by
  refine ⟨by norm_num [find_depth_for_30m_end], by norm_num,
    by norm_num, by norm_num⟩

/-- **C5, amended.** For nonzero `n2Percent`,
`depthFor30mEquivalentNarcoticDepth` returns exactly
`(0.79*4 / (n2Percent/100) - 1) * 10` (target nitrogen partial pressure
3.16 bar, what air produces at 30 m); for `n2Percent = 68` the result is
`(3.16/0.68 - 1) * 10 = 620/17`, approximately 36.47 meters. -/
theorem end_depth_formula (n2 : ℚ) (h : n2 ≠ 0) :
    find_depth_for_30m_end n2 =
      some ((0.79 * 4 / (n2 / 100) - 1) * 10) ∧
    find_depth_for_30m_end 68 = some (620 / 17) ∧
    (36 : ℚ) < 620 / 17 ∧ (620 : ℚ) / 17 < 37 := by
  refine ⟨?_, by norm_num [find_depth_for_30m_end], by norm_num,
    by norm_num⟩
  have hz : n2 / 100 ≠ 0 := by
    simp [div_eq_zero_iff, h]
  simp [find_depth_for_30m_end, hz]

theorem end_depth_formula_witness :
    find_depth_for_30m_end 68 = some ((0.79 * 4 / ((68 : ℚ) / 100) - 1) * 10) :=
  (end_depth_formula 68 (by norm_num)).1

/-- **C8, counterexample.** At `o2Percent = 0` the code raises
(`ZeroDivisionError`, modelled as `none`): the function does not complete
and return a checkable value, contrary to the claim that it never
raises. -/
theorem depth_for_po2_raises_on_zero_o2 :
    calculate_depth_for_po2 1.4 0 = none ∧
    (calculate_depth_for_po2 1.4 0).isSome = false := by
  norm_num [calculate_depth_for_po2]

/-- **C8, amended.** `depthForPO2` raises (`ZeroDivisionError`) exactly
when `o2Percent = 0`; for every nonzero `o2Percent` it completes without
raising, possibly returning a negative depth the caller must check (e.g.
target 0.5 bar on pure oxygen gives -5 m). -/
theorem depth_for_po2_raises_iff_zero (target_po2 o2 : ℚ) :
    (calculate_depth_for_po2 target_po2 o2 = none ↔ o2 = 0) ∧
    calculate_depth_for_po2 0.5 100 = some (-5) := by
  constructor
  · by_cases h : o2 = 0
    · simp [calculate_depth_for_po2, h]
    · have hz : o2 / 100 ≠ 0 := by simp [div_eq_zero_iff, h]
      simp [calculate_depth_for_po2, hz, h]
  · norm_num [calculate_depth_for_po2]

theorem depth_for_po2_raises_iff_zero_witness :
    (calculate_depth_for_po2 1.4 21 = none ↔ (21 : ℚ) = 0) ∧
    calculate_depth_for_po2 0.5 100 = some (-5) :=
  depth_for_po2_raises_iff_zero 1.4 21

/-- **C2.** For every mix with positive per-liter weight and every target
density, the search returns (for sufficient fuel) the smallest integer
depth `d ≥ 0` whose density meets or exceeds the target; every shallower
depth is strictly below it. -/
theorem gas_density_first_crossing (o2 he target : ℚ)
    (hw : 0 < gasWeight o2 he) :
    ∃ fuel d, calculate_depth_for_gas_density o2 he target fuel = some d ∧
      target ≤ densityAtDepth o2 he d ∧
      ∀ e, e < d → densityAtDepth o2 he e < target := by
  obtain ⟨D, hD⟩ := exists_densityAtDepth_ge o2 he target hw
  obtain ⟨d, hd⟩ := gasDensityLoop_complete o2 he target (D + 1) 0 D hD
    (by omega) (by omega)
  obtain ⟨-, h2, h3⟩ := gasDensityLoop_sound o2 he target (D + 1) 0 d hd
  exact ⟨D + 1, d, hd, h2, fun e he' => h3 e (by omega) he'⟩

theorem gas_density_first_crossing_witness :
    0 < gasWeight 21 0 ∧
    ∃ fuel d, calculate_depth_for_gas_density 21 0 5.2 fuel = some d ∧
      5.2 ≤ densityAtDepth 21 0 d ∧
      ∀ e, e < d → densityAtDepth 21 0 e < 5.2 :=
  ⟨by norm_num [gasWeight, SPECIFIC_GRAVITY_O2, SPECIFIC_GRAVITY_N2,
      SPECIFIC_GRAVITY_HE],
   gas_density_first_crossing 21 0 5.2
    (by norm_num [gasWeight, SPECIFIC_GRAVITY_O2, SPECIFIC_GRAVITY_N2,
      SPECIFIC_GRAVITY_HE])⟩

/-- **C9.** For every physically valid mix (non-negative fractions,
positive per-liter weight), the density is strictly increasing in depth
and the whole-meter linear search terminates: some fuel makes it return a
depth. -/
theorem gas_density_search_terminates (o2 he target : ℚ)
    (ho2 : 0 ≤ o2 / 100) (hhe : 0 ≤ he / 100)
    (hn2 : 0 ≤ 1 - o2 / 100 - he / 100) (hw : 0 < gasWeight o2 he) :
    (∀ d1 d2 : ℕ, d1 < d2 →
      densityAtDepth o2 he d1 < densityAtDepth o2 he d2) ∧
    ∃ fuel d, calculate_depth_for_gas_density o2 he target fuel = some d := by
  refine ⟨fun d1 d2 h => densityAtDepth_strictMono o2 he hw h, ?_⟩
  obtain ⟨D, hD⟩ := exists_densityAtDepth_ge o2 he target hw
  obtain ⟨d, hd⟩ := gasDensityLoop_complete o2 he target (D + 1) 0 D hD
    (by omega) (by omega)
  exact ⟨D + 1, d, hd⟩

theorem gas_density_search_terminates_witness :
    (∀ d1 d2 : ℕ, d1 < d2 →
      densityAtDepth 21 0 d1 < densityAtDepth 21 0 d2) ∧
    ∃ fuel d, calculate_depth_for_gas_density 21 0 6.2 fuel = some d :=
  gas_density_search_terminates 21 0 6.2 (by norm_num) (by norm_num)
    (by norm_num)
    (by norm_num [gasWeight, SPECIFIC_GRAVITY_O2, SPECIFIC_GRAVITY_N2,
      SPECIFIC_GRAVITY_HE])

/-- **C1 (code bug).** At the candidate depths of
`calculate_depth_for_sp_and_density` the helium and nitrogen fractions
are scaled by `initial/100`, not renormalised over the diluent, so they
sum to `(he + n2)/100 * (1 - fracO2)` — NOT to the remaining volume
`1 - fracO2` whenever the initial mix contains oxygen.  Concretely for
diluent 18/35/47 at set point 1.3 and candidate depth 10 m:
`fracO2 = 0.65`, remaining volume `0.35`, but `fracHe + fracN2 = 0.287`
and all fractions sum to `0.937 ≠ 1`.  The He:N2 ratio part of the claim
does hold. -/
theorem sp_fractions_do_not_fill_remaining_volume :
    (∀ (he n2 sp : ℚ) (d : ℕ),
      spFracHe he sp d + spFracN2 n2 sp d =
        (he + n2) / 100 * (1 - spFracO2 sp d)) ∧
    spFracO2 1.3 10 = 13 / 20 ∧
    1 - spFracO2 1.3 10 = 7 / 20 ∧
    spFracHe 35 1.3 10 + spFracN2 47 1.3 10 = 287 / 1000 ∧
    (287 / 1000 : ℚ) ≠ 7 / 20 ∧
    spFracHe 35 1.3 10 * 47 = spFracN2 47 1.3 10 * 35 ∧
    spFracO2 1.3 10 + spFracHe 35 1.3 10 + spFracN2 47 1.3 10 =
      937 / 1000 := by
  refine ⟨?_, ?_, ?_, ?_, by norm_num, ?_, ?_⟩
  · intro he n2 sp d
    unfold spFracHe spFracN2
    ring
  all_goals norm_num [spFracO2, spFracHe, spFracN2, ambient_pressure]

/-- **C3.** The set-point search starts at 10 m and walks 1 m at a time
(every depth in `[10, d)` is tested shallower-first and found below
target), it raises exactly when `setPoint / ambientPressure ≥ 1` at the
first tested depth (10 m, ambient 2 ATA), with set point 1.3 the depth-10
test has `fracO2 = 0.65 < 1` and never raises, and with set point 2.5 it
raises. -/
theorem sp_search_error_behavior (he n2 target : ℚ) (fuel : ℕ)
    (hfuel : 1 ≤ fuel) (o2 sp : ℚ) :
    (∀ d, calculate_depth_for_sp_and_density o2 he n2 sp target fuel =
        some (SpResult.found d) →
      10 ≤ d ∧ ∀ e, 10 ≤ e → e < d → spDensity he n2 sp e < target) ∧
    (calculate_depth_for_sp_and_density o2 he n2 sp target fuel =
        some SpResult.unreachableSetPoint ↔ 1 ≤ spFracO2 sp 10) ∧
    spFracO2 1.3 10 = 13 / 20 ∧
    ¬ (1 ≤ spFracO2 1.3 10) ∧
    (1 ≤ spFracO2 2.5 10) ∧
    calculate_depth_for_sp_and_density o2 he n2 2.5 target fuel =
      some SpResult.unreachableSetPoint ∧
    calculate_depth_for_sp_and_density o2 he n2 1.3 target fuel ≠
      some SpResult.unreachableSetPoint := by
  have hiff : ∀ sp' : ℚ, (1 ≤ spFracO2 sp' 10 ↔ 2 ≤ sp') := by
    intro sp'
    rw [spFracO2_ten, le_div_iff₀ (by norm_num : (0 : ℚ) < 2)]
    constructor <;> intro <;> linarith
  refine ⟨?_, ?_, by norm_num [spFracO2_ten], ?_, ?_, ?_, ?_⟩
  · intro d hd
    obtain ⟨h1, -, -, h4⟩ := spDensityLoop_found_sound he n2 sp target fuel
      10 d hd
    exact ⟨h1, fun e he1 he2 => (h4 e he1 he2).2⟩
  · rw [sp_error_iff o2 he n2 sp target fuel hfuel]
    exact (hiff sp).symm
  · rw [hiff]; norm_num
  · rw [hiff]; norm_num
  · exact (sp_error_iff o2 he n2 2.5 target fuel hfuel).mpr (by norm_num)
  · intro h
    have := (sp_error_iff o2 he n2 1.3 target fuel hfuel).mp h
    norm_num at this

theorem sp_search_error_behavior_witness :
    calculate_depth_for_sp_and_density 18 35 47 2.5 5.2 1 =
      some SpResult.unreachableSetPoint :=
  (sp_search_error_behavior 35 47 5.2 1 (by norm_num) 18 1.3).2.2.2.2.2.1

/-- **C10.** For a positive set point the required oxygen fraction
`setPoint / (1 + depth/10)` strictly decreases with depth, so the
unreachable-set-point raise can only fire at the first tested depth:
the call raises iff `setPoint ≥ 2`, for `setPoint < 2` no iteration from
any depth ≥ 10 ever raises, and any returned depth is ≥ 10. -/
theorem sp_error_only_at_first_tested_depth (o2 he n2 sp target : ℚ)
    (fuel : ℕ) (hfuel : 1 ≤ fuel) :
    (0 < sp → ∀ d1 d2 : ℕ, d1 < d2 → spFracO2 sp d2 < spFracO2 sp d1) ∧
    (calculate_depth_for_sp_and_density o2 he n2 sp target fuel =
        some SpResult.unreachableSetPoint ↔ 2 ≤ sp) ∧
    (sp < 2 → ∀ fuel2 start, 10 ≤ start →
      spDensityLoop he n2 sp target fuel2 start ≠
        some SpResult.unreachableSetPoint) ∧
    (∀ d, calculate_depth_for_sp_and_density o2 he n2 sp target fuel =
        some (SpResult.found d) → 10 ≤ d) := by
  refine ⟨?_, sp_error_iff o2 he n2 sp target fuel hfuel,
    fun hsp fuel2 start hstart =>
      spDensityLoop_no_error he n2 sp target hsp fuel2 start hstart, ?_⟩
  · intro hsp d1 d2 h
    unfold spFracO2
    have hlt : ambient_pressure d1 < ambient_pressure d2 := by
      unfold ambient_pressure
      have hq : (d1 : ℚ) < (d2 : ℚ) := by exact_mod_cast h
      linarith
    exact div_lt_div_of_pos_left hsp (ambient_pressure_pos d1) hlt
  · intro d hd
    exact (spDensityLoop_found_sound he n2 sp target fuel 10 d hd).1

theorem sp_error_only_at_first_tested_depth_witness :
    calculate_depth_for_sp_and_density 18 35 47 1.3 5.2 1 =
        some SpResult.unreachableSetPoint ↔ (2 : ℚ) ≤ 1.3 :=
  (sp_error_only_at_first_tested_depth 18 35 47 1.3 5.2 1
    (by norm_num)).2.1

end GasGuru
